import Mathlib

/-!
Verification of the d2q9-bgk lattice-Boltzmann kernel (src/d2q9-bgk.c).

The C code's `float` arithmetic is embedded as exact rational arithmetic
(`ℚ`); the library square root `sqrtf` is not part of the repository and is
modelled as an explicit function parameter `sq : ℚ → ℚ`, about which theorems
assume only what the libm contract gives (non-negative output on non-negative
input).  Grids are total functions from coordinates to cells; the kernel's
writes are per-cell disjoint, so the destructive loops of the C code are
embedded pointwise.  The per-iteration scalar reductions (accumulation loops)
are embedded as finite sums over the loop ranges; rational addition is
commutative and associative, so the fold order of the C loop is immaterial
in the exact model.

Speed numbering, following the header comment of the source:
0 = rest, 1 = E, 2 = N, 3 = W, 4 = S, 5 = NE, 6 = NW, 7 = SW, 8 = SE.
-/

/-- The `t_param` struct: run constants.  The C fields are `int`/`float`;
dimensions and counts are embedded as `ℕ`, scalars as `ℚ`. -/
structure t_param where
  nx : ℕ
  ny : ℕ
  maxIters : ℕ
  reynolds_dim : ℕ
  density : ℚ
  accel : ℚ
  omega : ℚ

/-- One cell's nine directional values, mirroring the nine per-direction
arrays `s0` .. `s8` of the `t_speeds` struct at a fixed grid index. -/
structure Cell where
  s0 : ℚ
  s1 : ℚ
  s2 : ℚ
  s3 : ℚ
  s4 : ℚ
  s5 : ℚ
  s6 : ℚ
  s7 : ℚ
  s8 : ℚ
deriving DecidableEq

/-- Index a cell by speed number. -/
def Cell.get (p : Cell) : Fin 9 → ℚ
  | 0 => p.s0
  | 1 => p.s1
  | 2 => p.s2
  | 3 => p.s3
  | 4 => p.s4
  | 5 => p.s5
  | 6 => p.s6
  | 7 => p.s7
  | 8 => p.s8

/-- A grid: cell values at coordinates (x, y); the C code stores this as nine
row-major dense buffers indexed `x + y * nx`. -/
def Grid : Type := ℕ → ℕ → Cell

/-- The obstacle map: `true` at blocked cells (nonzero `obstacles[]` entry). -/
def ObstacleMask : Type := ℕ → ℕ → Bool

/-- `accelerate_flow`: adds forcing on row `ny - 2` of the current grid.
Each cell of that row is updated in place iff it is unobstructed and the
three decreased speeds would stay strictly positive; the loop runs
`ii = 0 .. nx-1`, so cells outside that range are untouched. -/
def accelerate_flow (params : t_param) (cells : Grid) (obstacles : ObstacleMask) :
    Grid :=
  let w1 : ℚ := params.density * params.accel / 9
  let w2 : ℚ := params.density * params.accel / 36
  let jj : ℕ := params.ny - 2
  fun x y =>
    let c := cells x y
    if y = jj ∧ x < params.nx ∧ obstacles x y = false ∧
        c.s3 - w1 > 0 ∧ c.s6 - w2 > 0 ∧ c.s7 - w2 > 0 then
      { c with
        s1 := c.s1 + w1
        s5 := c.s5 + w2
        s8 := c.s8 + w2
        s3 := c.s3 - w1
        s6 := c.s6 - w2
        s7 := c.s7 - w2 }
    else c

/-- The streamed-in ("propagate") values at cell (x, y): each speed is read
from the current grid at the neighbor found by the wrapped index arithmetic
of the kernel (`x_e = (ii+1) % nx`, `x_w = ii == 0 ? ii+nx-1 : ii-1`, and the
y analogues). -/
def propagated (params : t_param) (cells : Grid) (x y : ℕ) : Cell :=
  let y_s : ℕ := if y = 0 then y + params.ny - 1 else y - 1
  let y_n : ℕ := (y + 1) % params.ny
  let x_e : ℕ := (x + 1) % params.nx
  let x_w : ℕ := if x = 0 then x + params.nx - 1 else x - 1
  { s0 := (cells x y).s0
    s1 := (cells x_w y).s1
    s2 := (cells x y_s).s2
    s3 := (cells x_e y).s3
    s4 := (cells x y_n).s4
    s5 := (cells x_w y_s).s5
    s6 := (cells x_e y_s).s6
    s7 := (cells x_e y_n).s7
    s8 := (cells x_w y_n).s8 }

/-- Per-cell sum of the nine values (`local_density` of the collide step;
the identical expression is recomputed in `av_velocity` and
`write_values`). -/
def local_density (p : Cell) : ℚ :=
  p.s0 + p.s1 + p.s2 + p.s3 + p.s4 + p.s5 + p.s6 + p.s7 + p.s8

/-- x velocity component, as computed in the collide step and in
`av_velocity`: east-leaning minus west-leaning speeds over the density. -/
def u_x (p : Cell) : ℚ :=
  (p.s1 + p.s5 + p.s8 - (p.s3 + p.s6 + p.s7)) / local_density p

/-- y velocity component: north-leaning minus south-leaning speeds over the
density. -/
def u_y (p : Cell) : ℚ :=
  (p.s2 + p.s5 + p.s6 - (p.s4 + p.s7 + p.s8)) / local_density p

/-- Squared velocity magnitude. -/
def u_sq (p : Cell) : ℚ := u_x p * u_x p + u_y p * u_y p

/-- The directional velocity components `u[1]` .. `u[8]` of the collide
step (the C array leaves `u[0]` unset and never reads it; it is 0 here,
unused by `d_equ`). -/
def uDir (p : Cell) : Fin 9 → ℚ
  | 0 => 0
  | 1 => u_x p
  | 2 => u_y p
  | 3 => -u_x p
  | 4 => -u_y p
  | 5 => u_x p + u_y p
  | 6 => -u_x p + u_y p
  | 7 => -u_x p - u_y p
  | 8 => u_x p - u_y p

/-- The equilibrium densities `d_equ[0]` .. `d_equ[8]` of the collide step,
with the kernel's constants `c = 3`, `w0 = 4/9`, `w1 = 1/9`, `w2 = 1/36`
(the float literals `0.5f` and `1.5f` are 1/2 and 3/2). -/
def d_equ (p : Cell) : Fin 9 → ℚ := fun d =>
  let c : ℚ := 3
  let w0 : ℚ := 4 / 9
  let w1 : ℚ := 1 / 9
  let w2 : ℚ := 1 / 36
  match d with
  | 0 => w0 * local_density p * (1 - u_sq p * (1/2 * c))
  | 1 => w1 * local_density p *
      (1 + uDir p 1 * c + (uDir p 1 * uDir p 1) * (3/2 * c) - u_sq p * (1/2 * c))
  | 2 => w1 * local_density p *
      (1 + uDir p 2 * c + (uDir p 2 * uDir p 2) * (3/2 * c) - u_sq p * (1/2 * c))
  | 3 => w1 * local_density p *
      (1 + uDir p 3 * c + (uDir p 3 * uDir p 3) * (3/2 * c) - u_sq p * (1/2 * c))
  | 4 => w1 * local_density p *
      (1 + uDir p 4 * c + (uDir p 4 * uDir p 4) * (3/2 * c) - u_sq p * (1/2 * c))
  | 5 => w2 * local_density p *
      (1 + uDir p 5 * c + (uDir p 5 * uDir p 5) * (3/2 * c) - u_sq p * (1/2 * c))
  | 6 => w2 * local_density p *
      (1 + uDir p 6 * c + (uDir p 6 * uDir p 6) * (3/2 * c) - u_sq p * (1/2 * c))
  | 7 => w2 * local_density p *
      (1 + uDir p 7 * c + (uDir p 7 * uDir p 7) * (3/2 * c) - u_sq p * (1/2 * c))
  | 8 => w2 * local_density p *
      (1 + uDir p 8 * c + (uDir p 8 * uDir p 8) * (3/2 * c) - u_sq p * (1/2 * c))

/-- The relaxation ("collision") writes of the kernel's open branch:
`next(d) = streamed(d) + omega * (d_equ(d) - streamed(d))` for all nine
speeds, applied to the streamed cell `p`. -/
def collide_cell (omega : ℚ) (p : Cell) : Cell :=
  { s0 := p.s0 + omega * (d_equ p 0 - p.s0)
    s1 := p.s1 + omega * (d_equ p 1 - p.s1)
    s2 := p.s2 + omega * (d_equ p 2 - p.s2)
    s3 := p.s3 + omega * (d_equ p 3 - p.s3)
    s4 := p.s4 + omega * (d_equ p 4 - p.s4)
    s5 := p.s5 + omega * (d_equ p 5 - p.s5)
    s6 := p.s6 + omega * (d_equ p 6 - p.s6)
    s7 := p.s7 + omega * (d_equ p 7 - p.s7)
    s8 := p.s8 + omega * (d_equ p 8 - p.s8)}

/-- The rebound writes of the kernel's obstructed branch: the C code stores
the streamed values `prop1..prop8` mirrored into `tmp_cells` speeds
1..8 and does NOT store speed 0, so the next buffer keeps its prior
content `old.s0` at that slot. -/
def rebound_cell (old : Cell) (p : Cell) : Cell :=
  { s0 := old.s0
    s1 := p.s3
    s2 := p.s4
    s3 := p.s1
    s4 := p.s2
    s5 := p.s7
    s6 := p.s8
    s7 := p.s5
    s8 := p.s6 }

/-- The grid produced by one `timestep` call: `accelerate_flow` mutates the
current grid first, then the fused loop writes every in-range cell of the
next buffer (`tmp_cells`); out-of-range slots, and speed 0 of obstructed
cells, keep the next buffer's prior content. -/
def timestep_next (params : t_param) (cells tmp_cells : Grid)
    (obstacles : ObstacleMask) : Grid :=
  let cells' := accelerate_flow params cells obstacles
  fun x y =>
    if x < params.nx ∧ y < params.ny then
      let p := propagated params cells' x y
      if obstacles x y then rebound_cell (tmp_cells x y) p
      else collide_cell params.omega p
    else tmp_cells x y

/-- The `tot_u` reduction of `timestep`: each open cell contributes the
square root of its squared streamed velocity; obstructed cells contribute
nothing.  `sq` stands for libm's `sqrtf`. -/
def timestep_tot_u (sq : ℚ → ℚ) (params : t_param) (cells : Grid)
    (obstacles : ObstacleMask) : ℚ :=
  let cells' := accelerate_flow params cells obstacles
  ∑ jj in Finset.range params.ny, ∑ ii in Finset.range params.nx,
    if obstacles ii jj then 0 else sq (u_sq (propagated params cells' ii jj))

/-- The `tot_cells` reduction of `timestep`: each open cell contributes 1;
obstructed cells contribute nothing. -/
def timestep_tot_cells (params : t_param) (obstacles : ObstacleMask) : ℕ :=
  ∑ jj in Finset.range params.ny, ∑ ii in Finset.range params.nx,
    if obstacles ii jj then 0 else 1

/-- The scalar returned by `timestep`: `tot_u / (float)tot_cells`. -/
def timestep_av (sq : ℚ → ℚ) (params : t_param) (cells : Grid)
    (obstacles : ObstacleMask) : ℚ :=
  timestep_tot_u sq params cells obstacles /
    (timestep_tot_cells params obstacles : ℚ)

/-- The `tot_u` accumulator of the standalone `av_velocity` pass: the same
density/velocity formula applied to each open cell's own stored values. -/
def av_tot_u (sq : ℚ → ℚ) (params : t_param) (cells : Grid)
    (obstacles : ObstacleMask) : ℚ :=
  ∑ jj in Finset.range params.ny, ∑ ii in Finset.range params.nx,
    if obstacles ii jj then 0 else sq (u_sq (cells ii jj))

/-- The `tot_cells` counter of the standalone `av_velocity` pass. -/
def av_tot_cells (params : t_param) (obstacles : ObstacleMask) : ℕ :=
  ∑ jj in Finset.range params.ny, ∑ ii in Finset.range params.nx,
    if obstacles ii jj then 0 else 1

/-- `av_velocity`: `tot_u / (float)tot_cells` over a grid snapshot. -/
def av_velocity (sq : ℚ → ℚ) (params : t_param) (cells : Grid)
    (obstacles : ObstacleMask) : ℚ :=
  av_tot_u sq params cells obstacles / (av_tot_cells params obstacles : ℚ)

/-- `calc_reynolds`: `av_velocity * reynolds_dim / viscosity` with
`viscosity = 1/6 * (2/omega - 1)`. -/
def calc_reynolds (sq : ℚ → ℚ) (params : t_param) (cells : Grid)
    (obstacles : ObstacleMask) : ℚ :=
  let viscosity : ℚ := 1 / 6 * (2 / params.omega - 1)
  av_velocity sq params cells obstacles * (params.reynolds_dim : ℚ) / viscosity

/-- `total_density`: sum of all nine values over all `nx * ny` cells. -/
def total_density (params : t_param) (cells : Grid) : ℚ :=
  ∑ jj in Finset.range params.ny, ∑ ii in Finset.range params.nx,
    ((cells ii jj).s0 + (cells ii jj).s1 + (cells ii jj).s2 + (cells ii jj).s3 +
      (cells ii jj).s4 + (cells ii jj).s5 + (cells ii jj).s6 +
      (cells ii jj).s7 + (cells ii jj).s8)

/-! Spec-side lattice geometry: direction unit offsets, weight classes, and
the velocity component along a direction, written from the specification's
wording (used to state claims against the source-derived definitions
above). -/

/-- x component of each direction's unit offset (spec lattice geometry). -/
def dxOf : Fin 9 → ℤ
  | 0 => 0
  | 1 => 1
  | 2 => 0
  | 3 => -1
  | 4 => 0
  | 5 => 1
  | 6 => -1
  | 7 => -1
  | 8 => 1

/-- y component of each direction's unit offset (spec lattice geometry). -/
def dyOf : Fin 9 → ℤ
  | 0 => 0
  | 1 => 0
  | 2 => 1
  | 3 => 0
  | 4 => -1
  | 5 => 1
  | 6 => 1
  | 7 => -1
  | 8 => -1

/-- Spec weight classes: w0 = 4/9 for rest, w1 = 1/9 for axis directions,
w2 = 1/36 for diagonals. -/
def specWeight : Fin 9 → ℚ
  | 0 => 4 / 9
  | 1 => 1 / 9
  | 2 => 1 / 9
  | 3 => 1 / 9
  | 4 => 1 / 9
  | 5 => 1 / 36
  | 6 => 1 / 36
  | 7 => 1 / 36
  | 8 => 1 / 36

/-- Spec `e_d`: the direction's unit-vector component along (u_x, u_y)
(0 for the rest direction). -/
def eAlong (p : Cell) (d : Fin 9) : ℚ :=
  (dxOf d : ℚ) * u_x p + (dyOf d : ℚ) * u_y p

/-- C4: for every cell and every direction d, the equilibrium value computed
in the collide step equals
weight(d) * local_density * (1 + 3*e_d + 4.5*e_d^2 - 1.5*u_sq), where e_d is
the direction's unit-vector component along (u_x, u_y) (0 for rest) and
weight(d) is 4/9 for rest, 1/9 for axis directions, 1/36 for diagonals. -/
theorem d_equ_matches_spec_formula (p : Cell) (d : Fin 9) :
    d_equ p d = specWeight d * local_density p *
      (1 + 3 * eAlong p d + 9/2 * (eAlong p d)^2 - 3/2 * u_sq p) := by
  fin_cases d <;>
    simp only [d_equ, specWeight, eAlong, dxOf, dyOf, uDir, u_sq] <;>
    push_cast <;> ring

/-- C6: when omega = 1, the value written to the next grid at an open
in-range cell equals the equilibrium value exactly, for every direction. -/
theorem timestep_omega_one_writes_equilibrium (params : t_param)
    (cells tmp_cells : Grid) (obstacles : ObstacleMask) (x y : ℕ) (d : Fin 9)
    (homega : params.omega = 1) (hx : x < params.nx) (hy : y < params.ny)
    (hobs : obstacles x y = false) :
    Cell.get (timestep_next params cells tmp_cells obstacles x y) d
      = d_equ (propagated params (accelerate_flow params cells obstacles) x y) d := by
  simp only [timestep_next, if_pos (And.intro hx hy), hobs]
  fin_cases d <;> simp [collide_cell, Cell.get, homega]

/-- Wrapped decrement: the kernel's `x_w`/`y_s` ternary equals subtraction
of 1 modulo n. -/
lemma wrapW (n x : ℕ) (h0 : 0 < n) (h : x < n) :
    (((x:ℤ) - 1) % (n:ℤ)).toNat = if x = 0 then x + n - 1 else x - 1 := by
  rcases Nat.eq_zero_or_pos x with hx | hx
  · have h2 : ((-1:ℤ) + (n:ℤ) * 1) % (n:ℤ) = (-1:ℤ) % (n:ℤ) :=
      Int.add_mul_emod_self_left (-1) (n:ℤ) 1
    have h3 : ((n:ℤ) - 1) % (n:ℤ) = (n:ℤ) - 1 :=
      Int.emod_eq_of_lt (by omega) (by omega)
    have h4 : ((x:ℤ) - 1) % (n:ℤ) = (n:ℤ) - 1 := by
      have e2 : ((-1:ℤ) + (n:ℤ) * 1) = (n:ℤ) - 1 := by ring
      have e1 : ((x:ℤ) - 1) = (-1:ℤ) := by rw [hx]; ring
      rw [e1, ← h2, e2, h3]
    simp only [if_pos hx]
    omega
  · have h4 : ((x:ℤ) - 1) % (n:ℤ) = (x:ℤ) - 1 :=
      Int.emod_eq_of_lt (by omega) (by omega)
    have hne : x ≠ 0 := by omega
    simp only [if_neg hne]
    omega

/-- Zero offset: the cell's own index modulo n. -/
lemma wrapC (n x : ℕ) (h : x < n) :
    (((x:ℤ) - 0) % (n:ℤ)).toNat = x := by
  have h4 : ((x:ℤ) - 0) % (n:ℤ) = (x:ℤ) := by
    have e : ((x:ℤ) - 0) = (x:ℤ) := by ring
    rw [e]
    exact Int.emod_eq_of_lt (by omega) (by omega)
  omega

/-- Wrapped increment: the kernel's `x_e`/`y_n` expression equals
subtraction of -1 modulo n. -/
lemma wrapE (n x : ℕ) :
    (((x:ℤ) - (-1)) % (n:ℤ)).toNat = (x + 1) % n := by
  have e1 : ((x:ℤ) - (-1)) = ((x + 1 : ℕ) : ℤ) := by push_cast; ring
  rw [e1, ← Int.natCast_mod]
  omega

/-- C5: streaming uses periodic wraparound on both axes.  The value arriving
from the west into cell (0,y) is the pre-step east value of cell (nx-1,y);
the value arriving from the south into cell (x,0) is the pre-step north
value of cell (x,ny-1); and in general every direction's streamed value is
read from the neighbor found by subtracting the direction's unit offset,
indices wrapped modulo nx and ny. -/
theorem propagated_periodic_wraparound (params : t_param) (cells : Grid)
    (x y : ℕ) (h0x : 0 < params.nx) (h0y : 0 < params.ny)
    (hx : x < params.nx) (hy : y < params.ny) :
    ((propagated params cells 0 y).s1 = (cells (params.nx - 1) y).s1) ∧
    ((propagated params cells x 0).s2 = (cells x (params.ny - 1)).s2) ∧
    ∀ d : Fin 9,
      Cell.get (propagated params cells x y) d
        = Cell.get (cells ((((x:ℤ) - dxOf d) % (params.nx:ℤ)).toNat)
            ((((y:ℤ) - dyOf d) % (params.ny:ℤ)).toNat)) d := by
  refine ⟨by simp [propagated], by simp [propagated], ?_⟩
  intro d
  fin_cases d <;>
    simp only [propagated, Cell.get, dxOf, dyOf, Fin.isValue,
      wrapW params.nx x h0x hx, wrapW params.ny y h0y hy,
      wrapC params.nx x hx, wrapC params.ny y hy,
      wrapE params.nx x, wrapE params.ny y]

/-- C2 counterexample: take nx = 1, ny = 2, density = 9, accel = 1 (so
w1' = 1, w2' = 1/4) and an unobstructed cell in row ny-2 = 0 with
W = 1, NW = SW = 1.  Subtracting w1' from W leaves exactly 0 — not
negative — so the claim mandates the forcing update (E would become
E + w1'), yet the code's strict `> 0` guard skips the cell entirely. -/
theorem accelerate_flow_nonneg_guard_counterexample :
    ¬ ((1:ℚ) - 9 * 1 / 9 < 0) ∧ ¬ ((1:ℚ) - 9 * 1 / 36 < 0) ∧
    (fun _ _ => false : ObstacleMask) 0 0 = false ∧
    accelerate_flow ⟨1, 2, 0, 0, 9, 1, 0⟩
        (fun _ _ => ⟨1, 1, 1, 1, 1, 1, 1, 1, 1⟩) (fun _ _ => false) 0 0
      = ⟨1, 1, 1, 1, 1, 1, 1, 1, 1⟩ ∧
    (1:ℚ) + 9 * 1 / 9 ≠ 1 := by
  refine ⟨by norm_num, by norm_num, rfl, ?_, by norm_num⟩
  simp only [accelerate_flow]
  rw [if_neg]
  norm_num

/-- C2 (amended): for an in-range cell of row ny-2, the forcing update is
applied iff the cell is unobstructed and the three decreased values
(W - w1', NW - w2', SW - w2') would all remain strictly positive; otherwise
the cell is left entirely unchanged (atomic go/no-go). -/
theorem accelerate_flow_guard_strict (params : t_param) (cells : Grid)
    (obstacles : ObstacleMask) (x : ℕ) (hx : x < params.nx) :
    ((obstacles x (params.ny - 2) = false ∧
        0 < (cells x (params.ny - 2)).s3 - params.density * params.accel / 9 ∧
        0 < (cells x (params.ny - 2)).s6 - params.density * params.accel / 36 ∧
        0 < (cells x (params.ny - 2)).s7 - params.density * params.accel / 36) →
      accelerate_flow params cells obstacles x (params.ny - 2) =
        { cells x (params.ny - 2) with
            s1 := (cells x (params.ny - 2)).s1 + params.density * params.accel / 9
            s5 := (cells x (params.ny - 2)).s5 + params.density * params.accel / 36
            s8 := (cells x (params.ny - 2)).s8 + params.density * params.accel / 36
            s3 := (cells x (params.ny - 2)).s3 - params.density * params.accel / 9
            s6 := (cells x (params.ny - 2)).s6 - params.density * params.accel / 36
            s7 := (cells x (params.ny - 2)).s7 - params.density * params.accel / 36 }) ∧
    (¬ (obstacles x (params.ny - 2) = false ∧
        0 < (cells x (params.ny - 2)).s3 - params.density * params.accel / 9 ∧
        0 < (cells x (params.ny - 2)).s6 - params.density * params.accel / 36 ∧
        0 < (cells x (params.ny - 2)).s7 - params.density * params.accel / 36) →
      accelerate_flow params cells obstacles x (params.ny - 2)
        = cells x (params.ny - 2)) := by
  constructor
  · rintro ⟨ho, h3, h6, h7⟩
    simp only [accelerate_flow]
    rw [if_pos]
    exact ⟨by trivial, hx, ho, h3, h6, h7⟩
  · intro hng
    simp only [accelerate_flow]
    rw [if_neg]
    rintro ⟨-, -, ho, h3, h6, h7⟩
    exact hng ⟨ho, h3, h6, h7⟩

/-- Witness for the amended C2 theorem at a concrete passing cell. -/
theorem accelerate_flow_guard_strict_witness :
    ((false = false ∧ 0 < (2:ℚ) - 9 * 1 / 9 ∧ 0 < (1:ℚ) - 9 * 1 / 36 ∧
        0 < (1:ℚ) - 9 * 1 / 36) →
      accelerate_flow ⟨1, 2, 0, 0, 9, 1, 0⟩
          (fun _ _ => ⟨1, 1, 1, 2, 1, 1, 1, 1, 1⟩) (fun _ _ => false) 0 0 =
        { (⟨1, 1, 1, 2, 1, 1, 1, 1, 1⟩ : Cell) with
            s1 := (1:ℚ) + 9 * 1 / 9
            s5 := (1:ℚ) + 9 * 1 / 36
            s8 := (1:ℚ) + 9 * 1 / 36
            s3 := (2:ℚ) - 9 * 1 / 9
            s6 := (1:ℚ) - 9 * 1 / 36
            s7 := (1:ℚ) - 9 * 1 / 36 }) ∧
    (¬ (false = false ∧ 0 < (2:ℚ) - 9 * 1 / 9 ∧ 0 < (1:ℚ) - 9 * 1 / 36 ∧
        0 < (1:ℚ) - 9 * 1 / 36) →
      accelerate_flow ⟨1, 2, 0, 0, 9, 1, 0⟩
          (fun _ _ => ⟨1, 1, 1, 2, 1, 1, 1, 1, 1⟩) (fun _ _ => false) 0 0
        = ⟨1, 1, 1, 2, 1, 1, 1, 1, 1⟩) := by
  exact accelerate_flow_guard_strict ⟨1, 2, 0, 0, 9, 1, 0⟩
    (fun _ _ => ⟨1, 1, 1, 2, 1, 1, 1, 1, 1⟩) (fun _ _ => false) 0 (by norm_num)

/-- Witness for the wraparound theorem on a concrete 2x2 grid. -/
theorem propagated_periodic_wraparound_witness :
    ((propagated ⟨2, 2, 0, 0, 0, 0, 0⟩
        (fun _ _ => ⟨0, 1, 2, 3, 4, 5, 6, 7, 8⟩) 0 1).s1 = (1:ℚ)) ∧
    ((propagated ⟨2, 2, 0, 0, 0, 0, 0⟩
        (fun _ _ => ⟨0, 1, 2, 3, 4, 5, 6, 7, 8⟩) 1 0).s2 = (2:ℚ)) ∧
    ∀ d : Fin 9,
      Cell.get (propagated ⟨2, 2, 0, 0, 0, 0, 0⟩
          (fun _ _ => ⟨0, 1, 2, 3, 4, 5, 6, 7, 8⟩) 1 1) d
        = Cell.get (⟨0, 1, 2, 3, 4, 5, 6, 7, 8⟩ : Cell) d := by
  exact propagated_periodic_wraparound ⟨2, 2, 0, 0, 0, 0, 0⟩
    (fun _ _ => ⟨0, 1, 2, 3, 4, 5, 6, 7, 8⟩) 1 1 (by norm_num) (by norm_num)
    (by norm_num) (by norm_num)

/-- Witness for the omega = 1 equilibrium fixed point on a concrete grid. -/
theorem timestep_omega_one_writes_equilibrium_witness :
    Cell.get (timestep_next ⟨1, 2, 0, 0, 0, 0, 1⟩
        (fun _ _ => ⟨1, 1, 1, 1, 1, 1, 1, 1, 1⟩)
        (fun _ _ => ⟨0, 0, 0, 0, 0, 0, 0, 0, 0⟩) (fun _ _ => false) 0 0) 1
      = d_equ (propagated ⟨1, 2, 0, 0, 0, 0, 1⟩
          (accelerate_flow ⟨1, 2, 0, 0, 0, 0, 1⟩
            (fun _ _ => ⟨1, 1, 1, 1, 1, 1, 1, 1, 1⟩) (fun _ _ => false)) 0 0) 1 := by
  exact timestep_omega_one_writes_equilibrium ⟨1, 2, 0, 0, 0, 0, 1⟩
    (fun _ _ => ⟨1, 1, 1, 1, 1, 1, 1, 1, 1⟩) (fun _ _ => ⟨0, 0, 0, 0, 0, 0, 0, 0, 0⟩)
    (fun _ _ => false) 0 0 1 rfl (by norm_num) (by norm_num) rfl

/-- C9: `accelerate_flow` never changes speeds 0 (rest), 2 (N) or 4 (S) of
any cell, and leaves every cell outside row ny-2 wholly unchanged. -/
theorem accelerate_flow_frame (params : t_param) (cells : Grid)
    (obstacles : ObstacleMask) (x y : ℕ) :
    ((accelerate_flow params cells obstacles x y).s0 = (cells x y).s0 ∧
     (accelerate_flow params cells obstacles x y).s2 = (cells x y).s2 ∧
     (accelerate_flow params cells obstacles x y).s4 = (cells x y).s4) ∧
    (y ≠ params.ny - 2 → accelerate_flow params cells obstacles x y = cells x y) := by
  constructor
  · simp only [accelerate_flow]
    split <;> simp
  · intro hy
    simp only [accelerate_flow]
    rw [if_neg]
    rintro ⟨h, -⟩
    exact hy h

/-- Witness for the frame theorem: a cell outside row ny-2 is unchanged. -/
theorem accelerate_flow_frame_witness :
    accelerate_flow ⟨1, 2, 0, 0, 9, 1, 0⟩
        (fun _ _ => ⟨1, 1, 1, 1, 1, 1, 1, 1, 1⟩) (fun _ _ => false) 0 1
      = ⟨1, 1, 1, 1, 1, 1, 1, 1, 1⟩ := by
  exact (accelerate_flow_frame ⟨1, 2, 0, 0, 9, 1, 0⟩
    (fun _ _ => ⟨1, 1, 1, 1, 1, 1, 1, 1, 1⟩) (fun _ _ => false) 0 1).2 (by norm_num)

/-- C7: the scalar returned by `timestep` is non-negative whenever `sqrtf`
behaves as libm specifies on non-negative arguments (its argument here,
u_x^2 + u_y^2, is always non-negative) and no open cell's streamed local
density is zero; in the exact rational embedding the value is a rational
number, hence finite. -/
theorem timestep_av_nonneg (sq : ℚ → ℚ) (params : t_param) (cells : Grid)
    (obstacles : ObstacleMask)
    (hsq : ∀ q, 0 ≤ q → 0 ≤ sq q)
    (hdens : ∀ x y, x < params.nx → y < params.ny → obstacles x y = false →
      local_density (propagated params
        (accelerate_flow params cells obstacles) x y) ≠ 0) :
    0 ≤ timestep_av sq params cells obstacles := by
  have h1 : 0 ≤ timestep_tot_u sq params cells obstacles := by
    simp only [timestep_tot_u]
    refine Finset.sum_nonneg fun jj _ => Finset.sum_nonneg fun ii _ => ?_
    by_cases h : obstacles ii jj = true
    · simp [h]
    · simp only [h, if_false]
      exact hsq _ (add_nonneg (mul_self_nonneg _) (mul_self_nonneg _))
  exact div_nonneg h1 (Nat.cast_nonneg _)

/-- Witness for the non-negative average velocity on an obstacle-free
1x2 grid (streamed density 9 at both open cells). -/
theorem timestep_av_nonneg_witness :
    0 ≤ timestep_av (fun _ => 0) ⟨1, 2, 0, 0, 0, 0, 0⟩
      (fun _ _ => ⟨1, 1, 1, 1, 1, 1, 1, 1, 1⟩) (fun _ _ => false) := by
  refine timestep_av_nonneg (fun _ => 0) ⟨1, 2, 0, 0, 0, 0, 0⟩
    (fun _ _ => ⟨1, 1, 1, 1, 1, 1, 1, 1, 1⟩) (fun _ _ => false)
    (fun q _ => le_refl 0) ?_
  intro x y hx hy _
  have hx1 : x < 1 := hx
  have hy2 : y < 2 := hy
  interval_cases x <;> interval_cases y <;>
    norm_num [local_density, propagated, accelerate_flow]

/-- Spec 4.4: the set of open (in-range, unobstructed) cells. -/
def openCells (params : t_param) (obstacles : ObstacleMask) : Finset (ℕ × ℕ) :=
  (Finset.range params.nx ×ˢ Finset.range params.ny).filter
    (fun q => obstacles q.1 q.2 = false)

/-- Spec 4.4, written from the specification's wording: the mean over all
open cells of sqrt(u_x^2 + u_y^2), each computed from the snapshot by the
same local_density/u_x/u_y formula as the collide step. -/
def average_velocity_spec (sq : ℚ → ℚ) (params : t_param) (cells : Grid)
    (obstacles : ObstacleMask) : ℚ :=
  (∑ q in openCells params obstacles, sq (u_sq (cells q.1 q.2))) /
    ((openCells params obstacles).card : ℚ)

/-- Spec 4.4: reynolds = average_velocity * reynolds_dim / viscosity with
viscosity = (1/6) * (2/omega - 1). -/
def reynolds_spec (sq : ℚ → ℚ) (params : t_param) (cells : Grid)
    (obstacles : ObstacleMask) : ℚ :=
  average_velocity_spec sq params cells obstacles * (params.reynolds_dim : ℚ) /
    (1 / 6 * (2 / params.omega - 1))

/-- C8: the Reynolds diagnostic of the source equals the specification's
formula: the mean velocity magnitude over open cells (recomputed from the
snapshot with the collide-step formulas) times reynolds_dim over the
viscosity (1/6)*(2/omega - 1). -/
theorem calc_reynolds_matches_spec (sq : ℚ → ℚ) (params : t_param)
    (cells : Grid) (obstacles : ObstacleMask) :
    calc_reynolds sq params cells obstacles
      = reynolds_spec sq params cells obstacles := by
  have hsum : av_tot_u sq params cells obstacles
      = ∑ q in openCells params obstacles, sq (u_sq (cells q.1 q.2)) := by
    rw [openCells, Finset.sum_filter, Finset.sum_product]
    rw [Finset.sum_comm]
    refine Finset.sum_congr rfl fun jj _ => Finset.sum_congr rfl fun ii _ => ?_
    cases h : obstacles ii jj <;> simp [h]
  have hcard : av_tot_cells params obstacles = (openCells params obstacles).card := by
    rw [openCells, Finset.card_filter, Finset.sum_product]
    rw [Finset.sum_comm]
    refine Finset.sum_congr rfl fun jj _ => Finset.sum_congr rfl fun ii _ => ?_
    cases h : obstacles ii jj <;> simp [h]
  simp only [calc_reynolds, reynolds_spec, av_velocity, average_velocity_spec,
    hsum, hcard]

/-- C10: when every in-range cell is obstructed, the open-cell counters and
velocity accumulators of the per-iteration reduction and of the standalone
reducer all stay zero, and both returned averages are the unguarded quotient
with numerator 0 and denominator (float)0 — neither function tests for an
empty set of open cells.  (In C this quotient is the non-finite 0.f/0.f;
exact rational arithmetic has no NaN, so the division-by-zero structure is
what is stated.) -/
theorem all_blocked_zero_counters (sq : ℚ → ℚ) (params : t_param)
    (cells : Grid) (obstacles : ObstacleMask)
    (h : ∀ x y, x < params.nx → y < params.ny → obstacles x y = true) :
    timestep_tot_cells params obstacles = 0 ∧
    timestep_tot_u sq params cells obstacles = 0 ∧
    av_tot_cells params obstacles = 0 ∧
    av_tot_u sq params cells obstacles = 0 ∧
    timestep_av sq params cells obstacles
      = timestep_tot_u sq params cells obstacles / ((0:ℕ) : ℚ) ∧
    av_velocity sq params cells obstacles
      = av_tot_u sq params cells obstacles / ((0:ℕ) : ℚ) := by
  have ht : timestep_tot_cells params obstacles = 0 := by
    simp only [timestep_tot_cells]
    refine Finset.sum_eq_zero fun jj hjj => Finset.sum_eq_zero fun ii hii => ?_
    rw [h ii jj (Finset.mem_range.mp hii) (Finset.mem_range.mp hjj)]
    simp
  have hu : timestep_tot_u sq params cells obstacles = 0 := by
    simp only [timestep_tot_u]
    refine Finset.sum_eq_zero fun jj hjj => Finset.sum_eq_zero fun ii hii => ?_
    rw [h ii jj (Finset.mem_range.mp hii) (Finset.mem_range.mp hjj)]
    simp
  have hat : av_tot_cells params obstacles = 0 := by
    simp only [av_tot_cells]
    refine Finset.sum_eq_zero fun jj hjj => Finset.sum_eq_zero fun ii hii => ?_
    rw [h ii jj (Finset.mem_range.mp hii) (Finset.mem_range.mp hjj)]
    simp
  have hau : av_tot_u sq params cells obstacles = 0 := by
    simp only [av_tot_u]
    refine Finset.sum_eq_zero fun jj hjj => Finset.sum_eq_zero fun ii hii => ?_
    rw [h ii jj (Finset.mem_range.mp hii) (Finset.mem_range.mp hjj)]
    simp
  refine ⟨ht, hu, hat, hau, ?_, ?_⟩
  · rw [timestep_av, ht]
  · rw [av_velocity, hat]

/-- Witness for the all-blocked theorem on a concrete fully-obstructed
1x2 grid. -/
theorem all_blocked_zero_counters_witness :
    timestep_tot_cells ⟨1, 2, 0, 0, 0, 0, 0⟩ (fun _ _ => true) = 0 ∧
    timestep_tot_u (fun _ => 0) ⟨1, 2, 0, 0, 0, 0, 0⟩
      (fun _ _ => ⟨1, 1, 1, 1, 1, 1, 1, 1, 1⟩) (fun _ _ => true) = 0 ∧
    av_tot_cells ⟨1, 2, 0, 0, 0, 0, 0⟩ (fun _ _ => true) = 0 ∧
    av_tot_u (fun _ => 0) ⟨1, 2, 0, 0, 0, 0, 0⟩
      (fun _ _ => ⟨1, 1, 1, 1, 1, 1, 1, 1, 1⟩) (fun _ _ => true) = 0 ∧
    timestep_av (fun _ => 0) ⟨1, 2, 0, 0, 0, 0, 0⟩
        (fun _ _ => ⟨1, 1, 1, 1, 1, 1, 1, 1, 1⟩) (fun _ _ => true)
      = timestep_tot_u (fun _ => 0) ⟨1, 2, 0, 0, 0, 0, 0⟩
          (fun _ _ => ⟨1, 1, 1, 1, 1, 1, 1, 1, 1⟩) (fun _ _ => true) / ((0:ℕ) : ℚ) ∧
    av_velocity (fun _ => 0) ⟨1, 2, 0, 0, 0, 0, 0⟩
        (fun _ _ => ⟨1, 1, 1, 1, 1, 1, 1, 1, 1⟩) (fun _ _ => true)
      = av_tot_u (fun _ => 0) ⟨1, 2, 0, 0, 0, 0, 0⟩
          (fun _ _ => ⟨1, 1, 1, 1, 1, 1, 1, 1, 1⟩) (fun _ _ => true) / ((0:ℕ) : ℚ) := by
  exact all_blocked_zero_counters (fun _ => 0) ⟨1, 2, 0, 0, 0, 0, 0⟩
    (fun _ _ => ⟨1, 1, 1, 1, 1, 1, 1, 1, 1⟩) (fun _ _ => true)
    (fun _ _ _ _ => rfl)

/-- Supporting fact: in exact arithmetic the nine equilibrium values sum to
the local density, so the open (collide) branch preserves each cell's mass
for every omega.  The mass defect exhibited below therefore comes solely
from the obstructed branch's unwritten rest value. -/
lemma collide_cell_mass (omega : ℚ) (p : Cell) :
    local_density (collide_cell omega p) = local_density p := by
  simp only [collide_cell, local_density, d_equ, uDir, u_sq]
  ring

/-- C1 evaluated at the failing input (nx = 1, ny = 2, both cells
obstructed, current grid speeds 1..9, scratch buffer all zero): the eight
opposite-direction swaps hold and the obstructed cells feed neither
reduction, but the next grid's rest value at (0,1) is the scratch buffer's
stale 0, not the streamed rest value 1 — the kernel never writes speed 0 of
an obstructed cell. -/
theorem rebound_rest_value_stale :
    timestep_next ⟨1, 2, 0, 0, 0, 0, 0⟩ (fun _ _ => ⟨1, 2, 3, 4, 5, 6, 7, 8, 9⟩)
        (fun _ _ => ⟨0, 0, 0, 0, 0, 0, 0, 0, 0⟩) (fun _ _ => true) 0 1
      = ⟨0, 4, 5, 2, 3, 8, 9, 6, 7⟩ ∧
    (propagated ⟨1, 2, 0, 0, 0, 0, 0⟩
        (accelerate_flow ⟨1, 2, 0, 0, 0, 0, 0⟩
          (fun _ _ => ⟨1, 2, 3, 4, 5, 6, 7, 8, 9⟩) (fun _ _ => true)) 0 1).s0 = 1 ∧
    (0:ℚ) ≠ 1 ∧
    timestep_tot_u (fun q => q) ⟨1, 2, 0, 0, 0, 0, 0⟩
        (fun _ _ => ⟨1, 2, 3, 4, 5, 6, 7, 8, 9⟩) (fun _ _ => true) = 0 ∧
    timestep_tot_cells ⟨1, 2, 0, 0, 0, 0, 0⟩ (fun _ _ => true) = 0 := by
  refine ⟨?_, ?_, by norm_num, ?_, ?_⟩
  · norm_num [timestep_next, rebound_cell, propagated, accelerate_flow]
  · norm_num [propagated, accelerate_flow]
  · simp [timestep_tot_u]
  · simp [timestep_tot_cells]

/-- C3 evaluated at a failing input with accel = 0: one iteration changes
the total density from 18 to 16 on a fully obstructed 1x2 grid whose
scratch buffer holds zeros, because each obstructed cell's rest value in
the next grid is the stale scratch value instead of the streamed one. -/
theorem total_density_not_conserved :
    (⟨1, 2, 0, 0, 0, 0, 0⟩ : t_param).accel = 0 ∧
    total_density ⟨1, 2, 0, 0, 0, 0, 0⟩
      (fun _ _ => ⟨1, 1, 1, 1, 1, 1, 1, 1, 1⟩) = 18 ∧
    total_density ⟨1, 2, 0, 0, 0, 0, 0⟩
        (timestep_next ⟨1, 2, 0, 0, 0, 0, 0⟩ (fun _ _ => ⟨1, 1, 1, 1, 1, 1, 1, 1, 1⟩)
          (fun _ _ => ⟨0, 0, 0, 0, 0, 0, 0, 0, 0⟩) (fun _ _ => true)) = 16 ∧
    (16:ℚ) ≠ 18 := by
  refine ⟨rfl, ?_, ?_, by norm_num⟩
  · norm_num [total_density, Finset.sum_range_succ]
  · norm_num [total_density, Finset.sum_range_succ, timestep_next, rebound_cell,
      propagated, accelerate_flow]
